import Mathlib

/-!
Verification of the WXR (WordPress eXtended RSS) export core of the
wordpress-site-generator repository.

The development shallowly embeds:
  * `utils.py`: `parse_bibtex`, `_parse_bibtex_regex`, `format_publication_html`
  * `models.py`: `ManualPublication.to_dict`
  * `routes/export.py`: `_generate_wxr_content` and its helpers
    (`_escape_xml`, `_create_attachment_xml`, `_create_page_xml`,
    `_build_homepage_content`, `_build_publications_html`, `_build_gallery_html`)

External collaborators are modelled as explicit parameters:
  * the `bibtexparser.loads` library call becomes a function
    `String → Except String (List BibEntry)` (an exception raised by the
    library is an `Except.error`); the `ImportError` branch of
    `parse_bibtex` corresponds to passing `none` for the library;
  * the `os.path.exists(get_uploaded_file_path(site.id, filename, folder))`
    check becomes a predicate `String → Bool` on the stored filename
    (site id and upload folder are fixed throughout one build).

Python truthiness on optional strings (`None` and `""` are falsy) is made
explicit through `pyTruthy`; a missing dictionary key and a `None` value
both become `Option.none`.
-/

/-- Python truthiness of an optional string: `None` and `""` are falsy,
every other string is truthy (models `if d.get(k):` on a str-or-None). -/
def pyTruthy (o : Option String) : Bool :=
  match o with
  | none => false
  | some s => !s.isEmpty

/-- Python truthiness of an optional integer: `None` and `0` are falsy
(models `if profile_picture_post_id:`). -/
def pyTruthyNat (o : Option Nat) : Bool :=
  match o with
  | none => false
  | some n => n != 0

/-- Python `str(x)` on a str-or-None value: `None` prints as `"None"`
(as happens inside an f-string interpolation). -/
def pyStr (o : Option String) : String :=
  match o with
  | none => "None"
  | some s => s

/-- Python `str.lower()` (ASCII range): lower-case each character. -/
def pyLower (s : String) : String :=
  String.mk (s.data.map Char.toLower)

/-- The characters matched by Python's regex class `\s` (ASCII range). -/
def pySpace (c : Char) : Bool :=
  c = ' ' || c = '\t' || c = '\n' || c = '\r' || c = '\x0b' || c = '\x0c'

/-- The characters matched by Python's regex class `\w` (ASCII range). -/
def pyWord (c : Char) : Bool :=
  c.isAlphanum || c = '_'

/-- Python `str.strip()` on a list of characters: drop leading and
trailing whitespace. -/
def pyStrip (cs : List Char) : List Char :=
  ((cs.dropWhile pySpace).reverse.dropWhile pySpace).reverse

/-- Python `a or b` on optional character-list values, where an absent
group is `None` and an empty string is falsy. -/
def pyOr (a b : Option (List Char)) : Option (List Char) :=
  match a with
  | some x => if x.isEmpty then b else some x
  | none => b

/-- The normalized publication dictionary produced by `parse_bibtex` /
`_parse_bibtex_regex` and consumed by `format_publication_html`.
A field holds `none` when the dictionary key is missing or its value is
Python `None` (both are treated identically by `dict.get`); it holds
`some s` when the key maps to the string `s`.  The `id` key that
`ManualPublication.to_dict` additionally emits is never read by the
formatter and is not modelled. -/
structure PubRec where
  key : Option String
  type : Option String
  title : Option String
  author : Option String
  year : Option String
  journal : Option String
  booktitle : Option String
  publisher : Option String
  volume : Option String
  pages : Option String
  doi : Option String
  url : Option String
deriving DecidableEq

/-- One entry as returned by the `bibtexparser` library: a dictionary of
string fields, where a key that is absent from the entry is modelled as
`""` (`entry.get(k, '')` in `parse_bibtex` cannot distinguish the two). -/
structure BibEntry where
  id : String
  entrytype : String
  title : String
  author : String
  year : String
  journal : String
  booktitle : String
  publisher : String
  volume : String
  pages : String
  doi : String
  url : String
deriving DecidableEq

/-- The `models.ManualPublication` row: `author` and `title` columns are
NOT NULL, the remaining columns are nullable. -/
structure ManualPublication where
  rowId : Nat
  author : String
  title : String
  publicationYear : Option String
  journalOrBooktitle : Option String
  publisher : Option String
  doi : Option String
  url : Option String
deriving DecidableEq

/-- `models.ManualPublication.to_dict`: the dictionary has keys
`id, author, title, year, journal, publisher, doi, url` only, so
`key`, `type`, `booktitle`, `volume`, `pages` are missing (`none`);
nullable columns pass their possible `None` through. -/
def ManualPublication.toDict (m : ManualPublication) : PubRec :=
  { key := none
    type := none
    title := some m.title
    author := some m.author
    year := m.publicationYear
    journal := m.journalOrBooktitle
    booktitle := none
    publisher := m.publisher
    volume := none
    pages := none
    doi := m.doi
    url := m.url }

/-- The conversion `parse_bibtex` applies to each library entry
(`utils.py` lines 103-116): every key is read with default `''` and
`ENTRYTYPE` is lower-cased. -/
def entryToPub (e : BibEntry) : PubRec :=
  { key := some e.id
    type := some (pyLower e.entrytype)
    title := some e.title
    author := some e.author
    year := some e.year
    journal := some e.journal
    booktitle := some e.booktitle
    publisher := some e.publisher
    volume := some e.volume
    pages := some e.pages
    doi := some e.doi
    url := some e.url }

/-- The parts of `format_publication_html` before the final link part
(`utils.py` lines 203-218): author, title, journal-or-booktitle,
publisher, year — each appended only when truthy. -/
def nonLinkParts (p : PubRec) : List String :=
  (if pyTruthy p.author then [p.author.getD "" ++ "."] else []) ++
  (if pyTruthy p.title then [" \"" ++ p.title.getD "" ++ ".\""] else []) ++
  (if pyTruthy p.journal then [" <em>" ++ p.journal.getD "" ++ "</em>"]
   else if pyTruthy p.booktitle then [" In <em>" ++ p.booktitle.getD "" ++ "</em>"]
   else []) ++
  (if pyTruthy p.publisher then [" " ++ p.publisher.getD ""] else []) ++
  (if pyTruthy p.year then [" (" ++ p.year.getD "" ++ ")"] else [])

/-- The HTML fragment emitted for a DOI (`utils.py` line 221). -/
def doiLinkPart (d : String) : String :=
  " <a href=\x27https://doi.org/" ++ d ++ "\x27 target=\x27_blank\x27>DOI</a>"

/-- The HTML fragment emitted for a plain URL (`utils.py` line 223). -/
def urlLinkPart (u : String) : String :=
  " <a href=\x27" ++ u ++ "\x27 target=\x27_blank\x27>Link</a>"

/-- The final link part of `format_publication_html`
(`utils.py` lines 220-223): DOI if truthy, else URL if truthy, else
nothing. -/
def linkParts (p : PubRec) : List String :=
  if pyTruthy p.doi then [doiLinkPart (p.doi.getD "")]
  else if pyTruthy p.url then [urlLinkPart (p.url.getD "")]
  else []

/-- `utils.format_publication_html`: the `html_parts` list, in the exact
order the source appends them. -/
def formatPublicationParts (p : PubRec) : List String :=
  nonLinkParts p ++ linkParts p

/-- `utils.format_publication_html`: `''.join(html_parts)`. -/
def formatPublicationHtml (p : PubRec) : String :=
  String.join (formatPublicationParts p)

/-- A `PubRec` all of whose fields are present: used to state that a
missing/`None` field behaves exactly like the empty string. -/
def noneToEmpty (p : PubRec) : PubRec :=
  { key := some (p.key.getD "")
    type := some (p.type.getD "")
    title := some (p.title.getD "")
    author := some (p.author.getD "")
    year := some (p.year.getD "")
    journal := some (p.journal.getD "")
    booktitle := some (p.booktitle.getD "")
    publisher := some (p.publisher.getD "")
    volume := some (p.volume.getD "")
    pages := some (p.pages.getD "")
    doi := some (p.doi.getD "")
    url := some (p.url.getD "") }

/-- An all-absent publication record. -/
def emptyPub : PubRec :=
  { key := none, type := none, title := none, author := none, year := none
    journal := none, booktitle := none, publisher := none, volume := none
    pages := none, doi := none, url := none }

/-!
### The regex fallback parser `_parse_bibtex_regex` (`utils.py` lines 129-188)

Entry pattern (Python `re`, IGNORECASE):
    `@(\w+)\s*\{\s*([^,\n]+),\s*([\s\S]*?)\n\s*\}`
Field pattern, run over each entry body:
    `(\w+)\s*=\s*(?:\{([^}]*)\}|"([^"]*)"|([^,\n}]*))`
The matchers below implement exactly the backtracking semantics of these
two patterns: a greedy `\s*` tries the longest whitespace run first, a
lazy `[\s\S]*?` tries the shortest extension first, and the alternation
tries its branches left to right at the same position.  `re.finditer`
semantics: attempt a match at every index from left to right and resume
after the end of each successful (non-overlapping) match.
-/

/-- Length of the longest prefix of `cs` whose characters satisfy `p`. -/
def takeCount (p : Char → Bool) (cs : List Char) : Nat :=
  (cs.takeWhile p).length

/-- Match `\s*([^,\n]+),` at the head of `cs` (the key part of the entry
pattern, entered just after the opening brace).  Returns the group
(the raw key text) and the remaining characters after the comma.
Backtracking: the greedy `\s*` tries runs from longest to shortest. -/
def matchKeyPart (cs : List Char) : Option (List Char × List Char) :=
  let w := takeCount pySpace cs
  (List.range (w + 1)).foldl
    (fun acc i =>
      match acc with
      | some r => some r
      | none =>
        let rest := cs.drop (w - i)
        let run := rest.takeWhile (fun c => !(c = ',' || c = '\n'))
        if run.length > 0 && (rest.drop run.length).head? = some ',' then
          some (run, rest.drop (run.length + 1))
        else none)
    none

/-- Match `\s*([\s\S]*?)\n\s*\}` at the head of `cs` (the body part of
the entry pattern, entered just after the key's comma).  Returns the
lazy group (the raw entry body) and the characters after the closing
brace.  Backtracking: longest `\s*` first; within it, shortest lazy
group first. -/
def matchBodyPart (cs : List Char) : Option (List Char × List Char) :=
  let w := takeCount pySpace cs
  (List.range (w + 1)).foldl
    (fun acc i =>
      match acc with
      | some r => some r
      | none =>
        let rest := cs.drop (w - i)
        (List.range rest.length).foldl
          (fun acc2 k =>
            match acc2 with
            | some r => some r
            | none =>
              match rest.drop k with
              | '\n' :: t =>
                let w2 := takeCount pySpace t
                if (t.drop w2).head? = some '\x7d' then
                  some (rest.take k, t.drop (w2 + 1))
                else none
              | _ => none)
          none)
    none

/-- Match the whole entry pattern at the head of `cs`.  On success
returns `(type group, key group, body group, rest after the match)`. -/
def matchEntryAt (cs : List Char) :
    Option (List Char × List Char × List Char × List Char) :=
  match cs with
  | '@' :: t =>
    let ty := t.takeWhile pyWord
    if ty.isEmpty then none
    else
      match (t.drop ty.length).dropWhile pySpace with
      | '\x7b' :: t2 =>
        match matchKeyPart t2 with
        | some (key, t3) =>
          match matchBodyPart t3 with
          | some (body, rest) => some (ty, key, body, rest)
          | none => none
        | none => none
      | _ => none
  | _ => none

/-- `re.finditer` of the entry pattern over the input: try the pattern at
every position, emit each non-overlapping match in source order.  `fuel`
bounds the scan; it is instantiated with the input length, which always
suffices because every match consumes at least one character. -/
def findEntries : Nat → List Char → List (List Char × List Char × List Char)
  | 0, _ => []
  | _, [] => []
  | fuel + 1, c :: t =>
    match matchEntryAt (c :: t) with
    | some (ty, key, body, rest) => (ty, key, body) :: findEntries fuel rest
    | none => findEntries fuel t

/-- Match the field pattern at the head of `cs`.  On success returns the
field-name group, the three value groups (brace-delimited, quote-
delimited, bare — exactly one is `some`), and the rest after the match.
The alternation falls through to the bare branch when a brace or quote
branch finds no closing delimiter. -/
def matchFieldAt (cs : List Char) :
    Option (List Char ×
            (Option (List Char) × Option (List Char) × Option (List Char)) ×
            List Char) :=
  let name := cs.takeWhile pyWord
  if name.isEmpty then none
  else
    match (cs.drop name.length).dropWhile pySpace with
    | '=' :: t2 =>
      let t3 := t2.dropWhile pySpace
      let bare :=
        let run := t3.takeWhile (fun c => !(c = ',' || c = '\n' || c = '\x7d'))
        some (name, (none, none, some run), t3.drop run.length)
      match t3 with
      | '\x7b' :: t4 =>
        let run := t4.takeWhile (fun c => !(c = '\x7d'))
        if (t4.drop run.length).head? = some '\x7d' then
          some (name, (some run, none, none), t4.drop (run.length + 1))
        else bare
      | '"' :: t4 =>
        let run := t4.takeWhile (fun c => !(c = '"'))
        if (t4.drop run.length).head? = some '"' then
          some (name, (none, some run, none), t4.drop (run.length + 1))
        else bare
      | _ => bare
    | _ => none

/-- `re.finditer` of the field pattern over one entry body. -/
def findFields :
    Nat → List Char →
    List (List Char × (Option (List Char) × Option (List Char) × Option (List Char)))
  | 0, _ => []
  | _, [] => []
  | fuel + 1, c :: t =>
    match matchFieldAt (c :: t) with
    | some (name, groups, rest) => (name, groups) :: findFields fuel rest
    | none => findFields fuel t

/-- `field_value = match.group(2) or match.group(3) or match.group(4)`
followed by `field_value.strip() if field_value else ''`
(`utils.py` lines 178-179). -/
def fieldValue
    (gs : Option (List Char) × Option (List Char) × Option (List Char)) : String :=
  match pyOr gs.1 (pyOr gs.2.1 gs.2.2) with
  | some v => String.mk (pyStrip v)
  | none => ""

/-- `if field_name in pub_dict: pub_dict[field_name] = field_value`
(`utils.py` lines 181-182): the dictionary's keys are the twelve record
fields, so `key` and `type` can be overwritten by fields of those names;
any other name is ignored. -/
def setField (p : PubRec) (name : String) (v : String) : PubRec :=
  if name = "key" then { p with key := some v }
  else if name = "type" then { p with type := some v }
  else if name = "title" then { p with title := some v }
  else if name = "author" then { p with author := some v }
  else if name = "year" then { p with year := some v }
  else if name = "journal" then { p with journal := some v }
  else if name = "booktitle" then { p with booktitle := some v }
  else if name = "publisher" then { p with publisher := some v }
  else if name = "volume" then { p with volume := some v }
  else if name = "pages" then { p with pages := some v }
  else if name = "doi" then { p with doi := some v }
  else if name = "url" then { p with url := some v }
  else p

/-- The initial `pub_dict` of `_parse_bibtex_regex` (lines 150-167):
key = stripped key group, type = lower-cased type group, every other
field the empty string. -/
def initRegexPub (ty key : List Char) : PubRec :=
  { key := some (String.mk (pyStrip key))
    type := some (pyLower (String.mk ty))
    title := some ""
    author := some ""
    year := some ""
    journal := some ""
    booktitle := some ""
    publisher := some ""
    volume := some ""
    pages := some ""
    doi := some ""
    url := some "" }

/-- Build the record of one matched entry: start from `initRegexPub` and
apply every field match of the entry body in order
(`utils.py` lines 169-182). -/
def buildRegexPub (m : List Char × List Char × List Char) : PubRec :=
  (findFields m.2.2.length m.2.2).foldl
    (fun p f => setField p (pyLower (String.mk f.1)) (fieldValue f.2))
    (initRegexPub m.1 m.2.1)

/-- The entry matches `re.finditer` yields for an input string. -/
def entryMatches (content : String) : List (List Char × List Char × List Char) :=
  findEntries content.data.length content.data

/-- `utils._parse_bibtex_regex`: one record per matched entry, kept only
when its `title` is truthy (lines 184-186). -/
def parseBibtexRegex (content : String) : List PubRec :=
  ((entryMatches content).map buildRegexPub).filter (fun p => pyTruthy p.title)

/-- The type of the modelled `bibtexparser.loads` call: for a given
input it either returns the entry list or raises (an `Except.error`). -/
abbrev BibLoads := String → Except String (List BibEntry)

/-- `utils.parse_bibtex`.  `lib = none` models the `ImportError` branch
(the library is unavailable and the regex fallback runs); `lib = some
loads` models the installed library.  The `try` block catches only
`ImportError`, so an error raised by `loads` propagates to the caller
(`Except.error`).  Each returned entry is normalized by `entryToPub`
and kept only when its title is truthy (lines 102-120). -/
def parseBibtex (lib : Option BibLoads) (content : String) :
    Except String (List PubRec) :=
  match lib with
  | some loads =>
    match loads content with
    | .ok entries =>
      .ok ((entries.map entryToPub).filter (fun p => pyTruthy p.title))
    | .error e => .error e
  | none => .ok (parseBibtexRegex content)

/-!
### The input records supplied by the persistence layer (`models.py`)
and the WXR document builder `_generate_wxr_content` (`routes/export.py`)
-/

/-- `models.User`: `username` is NOT NULL, the rest nullable. -/
structure UserRec where
  username : String
  email : Option String
  firstName : Option String
  lastName : Option String
deriving DecidableEq

/-- `models.User.full_name`:
`f"{self.first_name} {self.last_name}".strip() or self.username`.
Note the Python quirk: a `None` name interpolates as the text `"None"`,
so a user with no first/last name gets full name `"None None"`, not the
username fallback. -/
def UserRec.fullName (u : UserRec) : String :=
  let s := String.mk (pyStrip (pyStr u.firstName ++ " " ++ pyStr u.lastName).data)
  if s.isEmpty then u.username else s

/-- `models.WordPressSite` (the fields the builder reads). -/
structure SiteRec where
  id : Nat
  siteName : String
deriving DecidableEq

/-- `models.Step1PersonalInfo` (all content columns nullable). -/
structure Step1Rec where
  titleRole : Option String
  department : Option String
  fieldOfStudy : Option String
  email : Option String
  officeAddress : Option String
  phoneNumber : Option String
deriving DecidableEq

/-- `models.Step2Biography`. -/
structure Step2Rec where
  biography : Option String
deriving DecidableEq

/-- `models.Step3Publications`: the BibTeX blob plus the manually
entered publication rows in stored order. -/
structure Step3Rec where
  bibtexContent : Option String
  manualPublications : List ManualPublication
deriving DecidableEq

/-- `models.Step4Gallery`: the profile picture filename and the gallery
image filenames in stored order (`get_gallery_images()` decodes the
JSON column into exactly this list; an absent column gives `[]`). -/
structure Step4Rec where
  profilePicture : Option String
  galleryImages : List String
deriving DecidableEq

/-- `export._escape_xml`: empty (or falsy) text maps to `''`, otherwise
the five XML special characters are replaced in the source's order. -/
def escapeXml (text : String) : String :=
  if text.isEmpty then ""
  else ((((text.replace "&" "&amp;").replace "<" "&lt;").replace ">" "&gt;").replace
    "\"" "&quot;").replace "\x27" "&apos;"

/-- Python `a or b` for a nullable string with a string fallback
(models `user.email or user.username`). -/
def pyOrStr (a : Option String) (b : String) : String :=
  match a with
  | some s => if s.isEmpty then b else s
  | none => b

/-- `export._build_homepage_content` (lines 340-387): Gutenberg blocks
for the optional profile image, title/role heading, contact paragraph
and biography, joined by newlines. -/
def buildHomepageContent (s1 : Step1Rec) (s2 : Option Step2Rec)
    (profId : Option Nat) : String :=
  let profileParts :=
    if pyTruthyNat profId then
      ["<!-- wp:image \x7b\"id\":" ++ toString (profId.getD 0) ++
         ",\"sizeSlug\":\"large\",\"linkDestination\":\"none\"\x7d -->",
       "<figure class=\"wp-block-image size-large\"><img src=\"https://example.com/uploads/profile.jpg\" alt=\"Profile Picture\" class=\"wp-image-" ++
         toString (profId.getD 0) ++ "\" /></figure>",
       "<!-- /wp:image -->",
       ""]
    else []
  let titleParts :=
    if pyTruthy s1.titleRole then
      ["<!-- wp:heading \x7b\"level\":2\x7d -->",
       "<h2 class=\"wp-block-heading\">" ++ escapeXml (s1.titleRole.getD "") ++ "</h2>",
       "<!-- /wp:heading -->",
       ""]
    else []
  let contactParts :=
    (if pyTruthy s1.department then
       ["<strong>Department:</strong> " ++ escapeXml (s1.department.getD "")] else []) ++
    (if pyTruthy s1.fieldOfStudy then
       ["<strong>Field of Study:</strong> " ++ escapeXml (s1.fieldOfStudy.getD "")] else []) ++
    (if pyTruthy s1.email then
       ["<strong>Email:</strong> <a href=\"mailto:" ++ escapeXml (s1.email.getD "") ++
        "\">" ++ escapeXml (s1.email.getD "") ++ "</a>"] else []) ++
    (if pyTruthy s1.officeAddress then
       ["<strong>Office:</strong> " ++ escapeXml (s1.officeAddress.getD "")] else []) ++
    (if pyTruthy s1.phoneNumber then
       ["<strong>Phone:</strong> " ++ escapeXml (s1.phoneNumber.getD "")] else [])
  let contactBlock :=
    if !contactParts.isEmpty then
      ["<!-- wp:paragraph -->",
       "<p class=\"wp-block-paragraph\">" ++ String.intercalate "<br />" contactParts ++ "</p>",
       "<!-- /wp:paragraph -->",
       ""]
    else []
  let bioParts :=
    match s2 with
    | some x =>
      if pyTruthy x.biography then
        ["<!-- wp:heading \x7b\"level\":3\x7d -->",
         "<h3 class=\"wp-block-heading\">About</h3>",
         "<!-- /wp:heading -->",
         "",
         "<!-- wp:paragraph -->",
         "<p class=\"wp-block-paragraph\">" ++ escapeXml (x.biography.getD "") ++ "</p>",
         "<!-- /wp:paragraph -->"]
      else []
    | none => []
  String.intercalate "\n" (profileParts ++ titleParts ++ contactBlock ++ bioParts)

/-- The fixed heading lines that open the Publications page body
(`export._build_publications_html` lines 395-398). -/
def pubHeadingParts : List String :=
  ["<!-- wp:heading \x7b\"level\":2\x7d -->",
   "<h2 class=\"wp-block-heading\">Publications</h2>",
   "<!-- /wp:heading -->",
   ""]

/-- The three lines appended for one publication
(`export._build_publications_html` lines 415-419): its own
`wp:paragraph` block around the formatted citation. -/
def pubParagraphBlock (p : PubRec) : List String :=
  ["<!-- wp:paragraph -->",
   "<p class=\"wp-block-paragraph\">" ++ formatPublicationHtml p ++ "</p>",
   "<!-- /wp:paragraph -->"]

/-- `export._build_publications_html` (lines 390-421): heading, then
parsed BibTeX records followed by the manual records (converted via
`to_dict`), each as its own paragraph block; a "No publications listed."
paragraph when the combined list is empty. -/
def buildPublicationsHtml (publications : List PubRec)
    (manualPublications : List ManualPublication) : String :=
  let allPubs :=
    (if !publications.isEmpty then publications else []) ++
      manualPublications.map ManualPublication.toDict
  if allPubs.isEmpty then
    String.intercalate "\n"
      (pubHeadingParts ++
       ["<!-- wp:paragraph -->",
        "<p class=\"wp-block-paragraph\">No publications listed.</p>",
        "<!-- /wp:paragraph -->"])
  else
    String.intercalate "\n"
      (allPubs.foldl (fun acc p => acc ++ pubParagraphBlock p) pubHeadingParts)

/-- `export._build_gallery_html` (lines 424-455). -/
def buildGalleryHtml (galleryPostIds : List Nat) : String :=
  let headingParts :=
    ["<!-- wp:heading \x7b\"level\":2\x7d -->",
     "<h2 class=\"wp-block-heading\">Gallery</h2>",
     "<!-- /wp:heading -->",
     ""]
  if galleryPostIds.isEmpty then
    String.intercalate "\n"
      (headingParts ++
       ["<!-- wp:paragraph -->",
        "<p class=\"wp-block-paragraph\">No gallery images.</p>",
        "<!-- /wp:paragraph -->"])
  else
    let idsString := String.intercalate "," (galleryPostIds.map toString)
    let galleryJson :=
      "\x7b\"ids\":[" ++ idsString ++ "],\"columns\":3,\"size\":\"large\",\"linkTo\":\"none\"\x7d"
    String.intercalate "\n"
      (headingParts ++
       ["<!-- wp:gallery " ++ galleryJson ++ " -->",
        "<figure class=\"wp-block-gallery has-nested-images columns-3 is-cropped\">",
        "<ul class=\"blocks-gallery-grid\">"] ++
       galleryPostIds.map (fun pid =>
         "<li class=\"blocks-gallery-item\"><figure><img src=\"https://example.com/uploads/image" ++
         toString pid ++ ".jpg\" alt=\"\" class=\"wp-image-" ++ toString pid ++
         "\" /></figure></li>") ++
       ["</ul>", "</figure>", "<!-- /wp:gallery -->"])

/-- `export._create_attachment_xml` (lines 301-317).  The two
`datetime.utcnow()` renderings are passed in as `now822` / `nowSql`. -/
def createAttachmentXml (u : UserRec) (now822 nowSql : String)
    (filename : String) (postId : Nat) : List String :=
  ["    <item>",
   "      <title>" ++ escapeXml filename ++ "</title>",
   "      <description></description>",
   "      <wp:post_id>" ++ toString postId ++ "</wp:post_id>",
   "      <wp:status>inherit</wp:status>",
   "      <wp:post_type>attachment</wp:post_type>",
   "      <wp:post_parent>0</wp:post_parent>",
   "      <wp:attachment_url>https://example.com/uploads/" ++ escapeXml filename ++
     "</wp:attachment_url>",
   "      <dc:creator>" ++ escapeXml u.username ++ "</dc:creator>",
   "      <pubDate>" ++ now822 ++ "</pubDate>",
   "      <wp:post_date>" ++ nowSql ++ "</wp:post_date>",
   "      <wp:post_date_gmt>" ++ nowSql ++ "</wp:post_date_gmt>",
   "    </item>"]

/-- `export._create_page_xml` (lines 320-337). -/
def createPageXml (u : UserRec) (now822 nowSql : String)
    (title content : String) (postId : Nat) : List String :=
  ["    <item>",
   "      <title>" ++ escapeXml title ++ "</title>",
   "      <wp:post_id>" ++ toString postId ++ "</wp:post_id>",
   "      <wp:status>publish</wp:status>",
   "      <wp:post_type>page</wp:post_type>",
   "      <wp:post_parent>0</wp:post_parent>",
   "      <wp:menu_order>0</wp:menu_order>",
   "      <wp:is_sticky>0</wp:is_sticky>",
   "      <content:encoded><![CDATA[" ++ content ++ "]]></content:encoded>",
   "      <dc:creator>" ++ escapeXml u.username ++ "</dc:creator>",
   "      <pubDate>" ++ now822 ++ "</pubDate>",
   "      <wp:post_date>" ++ nowSql ++ "</wp:post_date>",
   "      <wp:post_date_gmt>" ++ nowSql ++ "</wp:post_date_gmt>",
   "    </item>"]

/-- The channel metadata lines that open the document
(`export._generate_wxr_content` lines 198-223). -/
def channelHeader (u : UserRec) (site : SiteRec) (now822 : String) : List String :=
  ["<?xml version=\"1.0\" encoding=\"UTF-8\"?>",
   "<rss version=\"2.0\"",
   "    xmlns:excerpt=\"http://wordpress.org/export/1.2/excerpt/\"",
   "    xmlns:content=\"http://purl.org/rss/1.0/modules/content/\"",
   "    xmlns:wfw=\"http://wellformedweb.org/CommentAPI/\"",
   "    xmlns:dc=\"http://purl.org/dc/elements/1.1/\"",
   "    xmlns:wp=\"http://wordpress.org/export/1.2/\">",
   "  <channel>",
   "    <title>" ++ escapeXml site.siteName ++ "</title>",
   "    <link>https://example.com</link>",
   "    <description>WordPress site for " ++ escapeXml u.fullName ++ "</description>",
   "    <language>en-us</language>",
   "    <pubDate>" ++ now822 ++ "</pubDate>",
   "    <lastBuildDate>" ++ now822 ++ "</lastBuildDate>",
   "    <generator>https://github.com/mit-libraries/wordpress-site-generator</generator>",
   "    <wp:wxr_version>1.2</wp:wxr_version>",
   "    <wp:base>https://example.com/index.php/</wp:base>",
   "    <wp:blog_name>" ++ escapeXml site.siteName ++ "</wp:blog_name>",
   "    <wp:author>",
   "      <wp:author_login>" ++ escapeXml u.username ++ "</wp:author_login>",
   "      <wp:author_email>" ++ escapeXml (pyOrStr u.email u.username) ++
     "</wp:author_email>",
   "      <wp:author_first_name>" ++ escapeXml (u.firstName.getD "") ++
     "</wp:author_first_name>",
   "      <wp:author_last_name>" ++ escapeXml (u.lastName.getD "") ++
     "</wp:author_last_name>",
   "    </wp:author>"]

/-- The closing lines (`export._generate_wxr_content` lines 281-284). -/
def channelFooter : List String :=
  ["  </channel>", "</rss>"]

/-- One `<item>` emitted into the channel, abstracted from its XML
lines.  A page additionally records, as `refs`, the attachment post ids
its body builder receives: the profile-picture id for the Home page
(`_build_homepage_content`'s third argument) and `gallery_post_ids` for
the Gallery page (`_build_gallery_html`'s argument); the Publications
page body references no attachments.  `renderItem` below maps an item
back to exactly the XML lines the source emits for it. -/
inductive WxrItem where
  | attachment (filename : String) (postId : Nat)
  | page (title : String) (content : String) (postId : Nat) (refs : List Nat)
deriving DecidableEq

/-- The post id assigned to an item. -/
def WxrItem.postId : WxrItem → Nat
  | .attachment _ i => i
  | .page _ _ i _ => i

/-- The attachment post ids a page item's body references. -/
def WxrItem.refs : WxrItem → List Nat
  | .attachment _ _ => []
  | .page _ _ _ rs => rs

/-- Whether an item is an attachment item. -/
def WxrItem.isAttachment : WxrItem → Bool
  | .attachment _ _ => true
  | .page _ _ _ _ => false

/-- The title of a page item (`none` for attachments). -/
def WxrItem.pageTitle? : WxrItem → Option String
  | .attachment _ _ => none
  | .page t _ _ _ => some t

/-- The content body of a page item (`""` for attachments). -/
def WxrItem.body : WxrItem → String
  | .attachment _ _ => ""
  | .page _ c _ _ => c

/-- Every attachment post id referenced by an item's body was assigned
to an attachment item emitted strictly earlier in the document. -/
def refsPrecede (L : List WxrItem) : Prop :=
  ∀ (i : Fin L.length) (r : Nat), r ∈ (L.get i).refs →
    ∃ f, WxrItem.attachment f r ∈ L.take i.val

/-- The gallery-image loop of `_generate_wxr_content` (lines 230-236):
for each filename in stored order, when the existence check succeeds the
counter is incremented, an attachment item is emitted and the new id is
collected.  Returns `(emitted items, gallery_post_ids, final counter)`. -/
def addGalleryAttachmentItems (fileExists : String → Bool) :
    List String → Nat → List WxrItem × List Nat × Nat
  | [], c => ([], [], c)
  | f :: fs, c =>
    if fileExists f then
      let r := addGalleryAttachmentItems fileExists fs (c + 1)
      (WxrItem.attachment f (c + 1) :: r.1, (c + 1) :: r.2.1, r.2.2)
    else
      addGalleryAttachmentItems fileExists fs c

/-- The `bibtex_publications` list of `_generate_wxr_content`
(lines 252-262): parsed only when step-3 data exists and its BibTeX
blob is truthy; a parse exception is caught and degrades to `[]`. -/
def bibtexPublicationsOf (lib : Option BibLoads) (s3 : Option Step3Rec) :
    List PubRec :=
  match s3 with
  | some s =>
    if pyTruthy s.bibtexContent then
      match parseBibtex lib (s.bibtexContent.getD "") with
      | .ok l => l
      | .error _ => []
    else []
  | none => []

/-- The `manual_publications_list` of `_generate_wxr_content`
(lines 264-266). -/
def manualPublicationsOf (s3 : Option Step3Rec) : List ManualPublication :=
  match s3 with
  | some s => if !s.manualPublications.isEmpty then s.manualPublications else []
  | none => []

/-- The gallery filenames the builder iterates over:
`step4_data.get_gallery_images()` when step-4 data exists, else none. -/
def galleryFilesOf (s4 : Option Step4Rec) : List String :=
  match s4 with
  | some x => x.galleryImages
  | none => []

/-- The profile-picture step of `_generate_wxr_content` (lines 238-244):
when step-4 data exists, its profile picture is truthy and the file
exists, the counter is incremented and one attachment item emitted;
returns `(emitted items, profile_picture_post_id, new counter)`. -/
def profileAttachmentStep (fileExists : String → Bool) (s4 : Option Step4Rec)
    (c : Nat) : List WxrItem × Option Nat × Nat :=
  match s4 with
  | some x =>
    if pyTruthy x.profilePicture then
      if fileExists (x.profilePicture.getD "") then
        ([WxrItem.attachment (x.profilePicture.getD "") (c + 1)],
         some (c + 1), c + 1)
      else ([], none, c)
    else ([], none, c)
  | none => ([], none, c)

/-- The item-level model of `export._generate_wxr_content`
(lines 225-278): the post-id counter starts at 1; gallery attachments,
then the optional profile-picture attachment, then always the Home page,
then the Publications page when any publication exists, then the Gallery
page when any gallery attachment was emitted.  `fileExists f` models
`os.path.exists(get_uploaded_file_path(site.id, f, upload_folder))`
(site id and upload folder are fixed for the whole build). -/
def generateWxrItems (fileExists : String → Bool) (lib : Option BibLoads)
    (s1 : Step1Rec) (s2 : Option Step2Rec) (s3 : Option Step3Rec)
    (s4 : Option Step4Rec) : List WxrItem :=
  let g := addGalleryAttachmentItems fileExists (galleryFilesOf s4) 1
  let prof := profileAttachmentStep fileExists s4 g.2.2
  let homeItem :=
    WxrItem.page "Home" (buildHomepageContent s1 s2 prof.2.1) (prof.2.2 + 1)
      prof.2.1.toList
  let bibtexPubs := bibtexPublicationsOf lib s3
  let manualPubs := manualPublicationsOf s3
  let pubs : List WxrItem × Nat :=
    if !bibtexPubs.isEmpty || !manualPubs.isEmpty then
      ([WxrItem.page "Publications" (buildPublicationsHtml bibtexPubs manualPubs)
          (prof.2.2 + 2) []],
       prof.2.2 + 2)
    else ([], prof.2.2 + 1)
  let galPage : List WxrItem :=
    if !g.2.1.isEmpty then
      [WxrItem.page "Gallery" (buildGalleryHtml g.2.1) (pubs.2 + 1) g.2.1]
    else []
  g.1 ++ prof.1 ++ [homeItem] ++ pubs.1 ++ galPage

/-- The XML lines the source emits for one item. -/
def renderItem (u : UserRec) (now822 nowSql : String) : WxrItem → List String
  | .attachment f i => createAttachmentXml u now822 nowSql f i
  | .page t c i _ => createPageXml u now822 nowSql t c i

/-- The gallery-image loop at the `xml_lines` level (mirrors
`_generate_wxr_content` lines 230-236 for the string output). -/
def galleryAttachmentLines (u : UserRec) (now822 nowSql : String)
    (fileExists : String → Bool) :
    List String → Nat → List String × List Nat × Nat
  | [], c => ([], [], c)
  | f :: fs, c =>
    if fileExists f then
      let r := galleryAttachmentLines u now822 nowSql fileExists fs (c + 1)
      (createAttachmentXml u now822 nowSql f (c + 1) ++ r.1, (c + 1) :: r.2.1, r.2.2)
    else
      galleryAttachmentLines u now822 nowSql fileExists fs c

/-- `export._generate_wxr_content` at the string level: the full
`'\n'.join(xml_lines)` output. -/
def generateWxrContent (u : UserRec) (site : SiteRec) (now822 nowSql : String)
    (fileExists : String → Bool) (lib : Option BibLoads)
    (s1 : Step1Rec) (s2 : Option Step2Rec) (s3 : Option Step3Rec)
    (s4 : Option Step4Rec) : String :=
  let g := galleryAttachmentLines u now822 nowSql fileExists (galleryFilesOf s4) 1
  let prof : List String × Option Nat × Nat :=
    match s4 with
    | some x =>
      if pyTruthy x.profilePicture then
        if fileExists (x.profilePicture.getD "") then
          (createAttachmentXml u now822 nowSql (x.profilePicture.getD "") (g.2.2 + 1),
           some (g.2.2 + 1), g.2.2 + 1)
        else ([], none, g.2.2)
      else ([], none, g.2.2)
    | none => ([], none, g.2.2)
  let homeLines :=
    createPageXml u now822 nowSql "Home" (buildHomepageContent s1 s2 prof.2.1)
      (prof.2.2 + 1)
  let bibtexPubs := bibtexPublicationsOf lib s3
  let manualPubs := manualPublicationsOf s3
  let pubs : List String × Nat :=
    if !bibtexPubs.isEmpty || !manualPubs.isEmpty then
      (createPageXml u now822 nowSql "Publications"
         (buildPublicationsHtml bibtexPubs manualPubs) (prof.2.2 + 2),
       prof.2.2 + 2)
    else ([], prof.2.2 + 1)
  let galPageLines : List String :=
    if !g.2.1.isEmpty then
      createPageXml u now822 nowSql "Gallery" (buildGalleryHtml g.2.1) (pubs.2 + 1)
    else []
  String.intercalate "\n"
    (channelHeader u site now822 ++ g.1 ++ prof.1 ++ homeLines ++ pubs.1 ++
     galPageLines ++ channelFooter)

/-- The exact BibTeX text of the doe2023 scenario. -/
def doeInput : String :=
  "@article\x7bdoe2023, title=\x7bA Study\x7d, author=\x7bDoe, J.\x7d, year=\x7b2023\x7d\x7d"

/-- The entry the `bibtexparser` library returns for `doeInput`: key
verbatim, type lower-cased, brace delimiters stripped, values trimmed,
all other fields absent. -/
def doeEntry : BibEntry :=
  ⟨"doe2023", "article", "A Study", "Doe, J.", "2023", "", "", "", "", "", "", ""⟩

/-- The normalized record the doe2023 scenario must produce. -/
def doeRec : PubRec :=
  ⟨some "doe2023", some "article", some "A Study", some "Doe, J.", some "2023",
   some "", some "", some "", some "", some "", some "", some ""⟩

/-!
## Helper lemmas
-/

theorem string_data_append (a b : String) : (a ++ b).data = a.data ++ b.data := rfl

theorem isEmpty_false_of_ne (s : String) (h : s ≠ "") : s.isEmpty = false := by
  cases hs : s.isEmpty
  · rfl
  · exact absurd ((String.isEmpty_iff s).mp hs) h

theorem pyTruthy_some_getD (o : Option String) :
    pyTruthy (some (o.getD "")) = pyTruthy o := by
  cases o
  · decide
  · simp [pyTruthy]

theorem foldl_append_blocks {α β : Type} (f : α → List β) :
    ∀ (l : List α) (init : List β),
      l.foldl (fun acc p => acc ++ f p) init = init ++ (l.map f).flatten := by
  intro l
  induction l with
  | nil => intro init; simp
  | cons a l ih => intro init; simp [ih, List.append_assoc]

/-!
## Claim theorems
-/

/-- C10: `format_publication_html` is total over publication
dictionaries: it is a total Lean function over `PubRec`, and a field
that is missing or `None` (`Option.none`) contributes exactly what the
empty string contributes — nothing — since every field is read with
`dict.get` and guarded by Python truthiness.  Replacing every absent
field by the present empty string leaves the output unchanged. -/
theorem formatPublication_total_none_as_absent (p : PubRec) :
    formatPublicationHtml (noneToEmpty p) = formatPublicationHtml p := by
  simp [formatPublicationHtml, formatPublicationParts, nonLinkParts, linkParts,
    noneToEmpty, pyTruthy_some_getD]

/-- C4 counterexample: formatting a record with only author `"A"` and
title `"T"` yields `A. "T."` — the title part carries a leading space
(`utils.py` line 207: `f" \"{title}.\""`), so the output is not the
claimed `A."T."` in which the quoted title immediately follows the
author's period. -/
theorem formatPublication_author_title_space_counterexample :
    formatPublicationHtml { emptyPub with author := some "A", title := some "T" } =
        "A. \"T.\"" ∧
      formatPublicationHtml { emptyPub with author := some "A", title := some "T" } ≠
        "A.\"T.\"" := by
  constructor
  · decide
  · decide

/-- C4 (amended): formatting a record with only the author and title
fields set yields exactly `{author}. "{title}."` — the author, a period,
a single space, then the title in double quotes with a period inside,
and no other characters and no punctuation from the absent fields. -/
theorem formatPublication_author_title_only (a t : String)
    (ha : a ≠ "") (ht : t ≠ "") :
    formatPublicationHtml { emptyPub with author := some a, title := some t } =
      a ++ ". \"" ++ t ++ ".\"" := by
  apply String.ext
  simp [formatPublicationHtml, formatPublicationParts, nonLinkParts, linkParts,
    emptyPub, pyTruthy, isEmpty_false_of_ne a ha, isEmpty_false_of_ne t ht,
    String.join_eq, string_data_append]

/-- C4 witness. -/
theorem formatPublication_author_title_only_witness :
    formatPublicationHtml
        { emptyPub with author := some "Doe, J.", title := some "A Study" } =
      "Doe, J." ++ ". \"" ++ "A Study" ++ ".\"" :=
  formatPublication_author_title_only "Doe, J." "A Study" (by decide) (by decide)

/-- C7: the link part of a formatted citation.  When `doi` is truthy the
output is the non-link parts followed by exactly the DOI link, and the
output does not depend on the `url` field at all; when `doi` is falsy
and `url` truthy the output ends in exactly the URL link; when both are
falsy no link is appended. -/
theorem formatPublication_doi_precedence (p : PubRec) :
    (pyTruthy p.doi = true →
      formatPublicationHtml p =
          String.join (nonLinkParts p ++ [doiLinkPart (p.doi.getD "")]) ∧
        ∀ u, formatPublicationHtml { p with url := u } = formatPublicationHtml p) ∧
    (pyTruthy p.doi = false → pyTruthy p.url = true →
      formatPublicationHtml p =
        String.join (nonLinkParts p ++ [urlLinkPart (p.url.getD "")])) ∧
    (pyTruthy p.doi = false → pyTruthy p.url = false →
      formatPublicationHtml p = String.join (nonLinkParts p)) := by
  refine ⟨fun hd => ⟨?_, fun u => ?_⟩, fun hd hu => ?_, fun hd hu => ?_⟩
  · simp [formatPublicationHtml, formatPublicationParts, linkParts, hd]
  · simp [formatPublicationHtml, formatPublicationParts, linkParts, nonLinkParts, hd]
  · simp [formatPublicationHtml, formatPublicationParts, linkParts, hd, hu]
  · simp [formatPublicationHtml, formatPublicationParts, linkParts, hd, hu]

/-- C7 witness: a record with both `doi` and `url` set gets exactly the
DOI link. -/
theorem formatPublication_doi_precedence_witness :
    formatPublicationHtml
        { emptyPub with doi := some "10.1000/x", url := some "https://e.com" } =
      String.join
        (nonLinkParts
            { emptyPub with doi := some "10.1000/x", url := some "https://e.com" } ++
          [doiLinkPart "10.1000/x"]) :=
  ((formatPublication_doi_precedence
      { emptyPub with doi := some "10.1000/x", url := some "https://e.com" }).1
    (by decide)).1

/-- C3 counterexample: `parse_bibtex` wraps the whole structured-parsing
block in `try ... except ImportError` only, so an exception raised by
the library's `loads` (e.g. the `UndefinedString`/`KeyError` that
`bibtexparser` raises interpolating an undefined string abbreviation
such as `title = somestring`) propagates to the caller instead of a
sequence being returned. -/
theorem parseBibtex_raises_counterexample :
    parseBibtex (some fun _ => Except.error "KeyError: \x27somestring\x27")
        "@article\x7bk, title = somestring\n\x7d" =
        Except.error "KeyError: \x27somestring\x27" ∧
      ∀ l, parseBibtex (some fun _ => Except.error "KeyError: \x27somestring\x27")
        "@article\x7bk, title = somestring\n\x7d" ≠ Except.ok l := by
  refine ⟨rfl, fun l h => ?_⟩
  simp [parseBibtex] at h

/-- C3 (amended): `parse_bibtex` returns a (possibly empty) record list
and raises nothing on the two shielded paths — when the structured
library is unavailable (the `ImportError` fallback runs the regex
parser, which always returns a list) and when the library's `loads`
call returns normally; only a non-`ImportError` exception raised inside
the `try` block (by `loads` itself) escapes to the caller, and the
builder's call sites guard for exactly that with their own
`try/except`. -/
theorem parseBibtex_shielded_paths_return (content : String) :
    (parseBibtex none content = Except.ok (parseBibtexRegex content)) ∧
    (∀ (loads : BibLoads) (entries : List BibEntry),
      loads content = Except.ok entries →
      ∃ l, parseBibtex (some loads) content = Except.ok l) := by
  refine ⟨rfl, fun loads entries h =>
    ⟨(entries.map entryToPub).filter (fun p => pyTruthy p.title), ?_⟩⟩
  simp [parseBibtex, h]

/-- C3 witness. -/
theorem parseBibtex_shielded_paths_return_witness :
    (parseBibtex none "not bibtex at all" =
        Except.ok (parseBibtexRegex "not bibtex at all")) ∧
      ∃ l, parseBibtex (some fun _ => Except.ok ([] : List BibEntry))
        "not bibtex at all" = Except.ok l :=
  ⟨(parseBibtex_shielded_paths_return "not bibtex at all").1,
   (parseBibtex_shielded_paths_return "not bibtex at all").2
     (fun _ => Except.ok []) [] rfl⟩

/-- C6: an entry whose title is missing or empty is absent from the
parsed sequence, and an entry with a non-empty title is present, under
both strategies.  Structured path: the result is exactly the normalized
library entries whose title is truthy.  Regex path: every returned
record has a truthy title, and the record built from any matched entry
is returned whenever its extracted title is truthy. -/
theorem parse_drops_untitled_entries :
    (∀ (loads : BibLoads) (content : String) (entries : List BibEntry),
      loads content = Except.ok entries →
      ∃ l, parseBibtex (some loads) content = Except.ok l ∧
        ∀ p, p ∈ l ↔ ((∃ e ∈ entries, entryToPub e = p) ∧ pyTruthy p.title = true)) ∧
    (∀ content : String,
      (∀ p ∈ parseBibtexRegex content, pyTruthy p.title = true) ∧
      (∀ m ∈ entryMatches content,
        pyTruthy (buildRegexPub m).title = true →
          buildRegexPub m ∈ parseBibtexRegex content)) := by
  constructor
  · intro loads content entries h
    refine ⟨(entries.map entryToPub).filter (fun p => pyTruthy p.title),
      by simp [parseBibtex, h], fun p => ?_⟩
    simp [List.mem_filter, List.mem_map]
  · intro content
    constructor
    · intro p hp
      exact (List.mem_filter.mp hp).2
    · intro m hm ht
      exact List.mem_filter.mpr ⟨List.mem_map_of_mem _ hm, ht⟩

/-- C6 witness: a two-entry library result, one untitled entry dropped
and one titled entry kept. -/
theorem parse_drops_untitled_entries_witness :
    ∃ l, parseBibtex
          (some fun _ => Except.ok
            [{ doeEntry with title := "" }, doeEntry]) "x" = Except.ok l ∧
        ∀ p, p ∈ l ↔
          ((∃ e ∈ [{ doeEntry with title := "" }, doeEntry], entryToPub e = p) ∧
            pyTruthy p.title = true) :=
  parse_drops_untitled_entries.1 _ "x" [{ doeEntry with title := "" }, doeEntry] rfl

/-- C9: when the library returns the one entry it extracts from the
doe2023 scenario text (key taken verbatim before the first comma, type
lower-cased, brace delimiters stripped, whitespace trimmed),
`parse_bibtex` returns exactly one record with key "doe2023", type
"article", title "A Study", author "Doe, J." and year "2023". -/
theorem doe2023_scenario_parses (loads : BibLoads)
    (h : loads doeInput = Except.ok [doeEntry]) :
    parseBibtex (some loads) doeInput = Except.ok [doeRec] := by
  simp [parseBibtex, h]
  decide

/-- C9 witness. -/
theorem doe2023_scenario_parses_witness :
    parseBibtex (some fun _ => Except.ok [doeEntry]) doeInput =
      Except.ok [doeRec] :=
  doe2023_scenario_parses _ rfl

/-!
## Lemmas about the gallery loop and the profile step
-/

theorem agai_map_postId (fe : String → Bool) :
    ∀ (fs : List String) (c : Nat),
      (addGalleryAttachmentItems fe fs c).1.map WxrItem.postId =
        (addGalleryAttachmentItems fe fs c).2.1 := by
  intro fs
  induction fs with
  | nil => intro c; simp [addGalleryAttachmentItems]
  | cons f fs ih =>
    intro c
    by_cases h : fe f
    · simp [addGalleryAttachmentItems, h, WxrItem.postId, ih (c + 1)]
    · simp [addGalleryAttachmentItems, h, ih c]

theorem agai_counter (fe : String → Bool) :
    ∀ (fs : List String) (c : Nat),
      (addGalleryAttachmentItems fe fs c).2.2 =
        c + (addGalleryAttachmentItems fe fs c).1.length := by
  intro fs
  induction fs with
  | nil => intro c; simp [addGalleryAttachmentItems]
  | cons f fs ih =>
    intro c
    by_cases h : fe f
    · simp [addGalleryAttachmentItems, h, ih (c + 1)]
      omega
    · simp [addGalleryAttachmentItems, h, ih c]

theorem agai_ids (fe : String → Bool) :
    ∀ (fs : List String) (c : Nat),
      (addGalleryAttachmentItems fe fs c).2.1 =
        List.range' (c + 1) (addGalleryAttachmentItems fe fs c).1.length := by
  intro fs
  induction fs with
  | nil => intro c; simp [addGalleryAttachmentItems]
  | cons f fs ih =>
    intro c
    by_cases h : fe f
    · simp [addGalleryAttachmentItems, h, ih (c + 1), List.range'_succ]
    · simp [addGalleryAttachmentItems, h, ih c]

theorem agai_attachments (fe : String → Bool) :
    ∀ (fs : List String) (c : Nat),
      ∀ it ∈ (addGalleryAttachmentItems fe fs c).1, it.isAttachment = true := by
  intro fs
  induction fs with
  | nil => intro c; simp [addGalleryAttachmentItems]
  | cons f fs ih =>
    intro c
    by_cases h : fe f
    · simp only [addGalleryAttachmentItems, h, if_true, List.mem_cons]
      rintro it (rfl | hit)
      · rfl
      · exact ih (c + 1) it hit
    · simp only [addGalleryAttachmentItems, h, if_false]
      exact ih c

theorem agai_mem_of_id (fe : String → Bool) :
    ∀ (fs : List String) (c : Nat),
      ∀ i ∈ (addGalleryAttachmentItems fe fs c).2.1,
        ∃ f, WxrItem.attachment f i ∈ (addGalleryAttachmentItems fe fs c).1 := by
  intro fs
  induction fs with
  | nil => intro c; simp [addGalleryAttachmentItems]
  | cons f fs ih =>
    intro c
    by_cases h : fe f
    · simp only [addGalleryAttachmentItems, h, if_true, List.mem_cons]
      rintro i (rfl | hi)
      · exact ⟨f, Or.inl rfl⟩
      · obtain ⟨f2, hf2⟩ := ih (c + 1) i hi
        exact ⟨f2, Or.inr hf2⟩
    · simp only [addGalleryAttachmentItems, h, if_false]
      exact ih c

theorem profile_spec (fe : String → Bool) (s4 : Option Step4Rec) (c : Nat) :
    profileAttachmentStep fe s4 c = ([], none, c) ∨
      ∃ f, profileAttachmentStep fe s4 c =
        ([WxrItem.attachment f (c + 1)], some (c + 1), c + 1) := by
  rcases s4 with _ | x
  · exact Or.inl rfl
  · by_cases h1 : pyTruthy x.profilePicture
    · by_cases h2 : fe (x.profilePicture.getD "")
      · exact Or.inr ⟨x.profilePicture.getD "", by simp [profileAttachmentStep, h1, h2]⟩
      · exact Or.inl (by simp [profileAttachmentStep, h1, h2])
    · exact Or.inl (by simp [profileAttachmentStep, h1])

theorem refs_eq_nil_of_isAttachment (it : WxrItem) (h : it.isAttachment = true) :
    it.refs = [] := by
  cases it
  · rfl
  · simp [WxrItem.isAttachment] at h

/-- In a list that is an attachments-only segment followed by a pages
segment whose references all resolve inside the attachment segment,
every reference of any item points at an attachment occurring strictly
earlier in the list. -/
theorem refs_precede_of_split (A P : List WxrItem)
    (hA : ∀ it ∈ A, it.refs = [])
    (hP : ∀ it ∈ P, ∀ r ∈ it.refs, ∃ f, WxrItem.attachment f r ∈ A) :
    ∀ (i : Fin (A ++ P).length) (r : Nat),
      r ∈ ((A ++ P).get i).refs →
      ∃ f, WxrItem.attachment f r ∈ (A ++ P).take i.val := by
  intro i r hr
  by_cases hi : i.val < A.length
  · have hmem : (A ++ P).get i ∈ A := by
      rw [List.get_eq_getElem, List.getElem_append_left hi]
      exact List.getElem_mem hi
    rw [hA _ hmem] at hr
    simp at hr
  · push_neg at hi
    have hmem : (A ++ P).get i ∈ P := by
      rw [List.get_eq_getElem, List.getElem_append_right hi]
      exact List.getElem_mem _
    obtain ⟨f, hf⟩ := hP _ hmem r hr
    refine ⟨f, ?_⟩
    rw [List.take_append_eq_append_take]
    exact List.mem_append_left _ (by rwa [List.take_of_length_le hi])

theorem refsPrecede_of_split (A P : List WxrItem)
    (hA : ∀ it ∈ A, it.refs = [])
    (hP : ∀ it ∈ P, ∀ r ∈ it.refs, ∃ f, WxrItem.attachment f r ∈ A) :
    refsPrecede (A ++ P) :=
  refs_precede_of_split A P hA hP

theorem map_append_range (gl tail : List WxrItem)
    (h1 : gl.map WxrItem.postId = List.range' 2 gl.length)
    (h3 : tail.map WxrItem.postId = List.range' (2 + gl.length) tail.length) :
    (gl ++ tail).map WxrItem.postId = List.range' 2 (gl ++ tail).length := by
  rw [List.map_append, h1, h3, List.length_append]
  have h := List.range'_append 2 gl.length tail.length 1
  simp only [one_mul] at h
  rw [h, Nat.add_comm tail.length gl.length]

/-- C1: in every generated document the emitted items' post ids form
the consecutive sequence 2, 3, 4, ... in emission order (the counter
starts at 1 and is incremented once before each attachment or page
emission, with no reuse and no gaps), and every attachment post id
referenced by a page's body (the profile picture referenced by Home,
the gallery ids referenced by Gallery) belongs to an attachment item
emitted strictly earlier than that page. -/
theorem wxr_postIds_consecutive_and_attachments_precede
    (fe : String → Bool) (lib : Option BibLoads)
    (s1 : Step1Rec) (s2 : Option Step2Rec) (s3 : Option Step3Rec) (s4 : Option Step4Rec) :
    (generateWxrItems fe lib s1 s2 s3 s4).map WxrItem.postId =
        List.range' 2 (generateWxrItems fe lib s1 s2 s3 s4).length ∧
      refsPrecede (generateWxrItems fe lib s1 s2 s3 s4) := by
  simp only [generateWxrItems]
  generalize hGe : addGalleryAttachmentItems fe (galleryFilesOf s4) 1 = G
  have hg1 := hGe ▸ agai_map_postId fe (galleryFilesOf s4) 1
  have hg2 := hGe ▸ agai_ids fe (galleryFilesOf s4) 1
  have hg3 := hGe ▸ agai_counter fe (galleryFilesOf s4) 1
  have hg4 := hGe ▸ agai_attachments fe (galleryFilesOf s4) 1
  have hg5 := hGe ▸ agai_mem_of_id fe (galleryFilesOf s4) 1
  generalize hPe : profileAttachmentStep fe s4 G.2.2 = P
  have hp := hPe ▸ profile_spec fe s4 G.2.2
  generalize hhc : buildHomepageContent s1 s2 P.2.1 = hco
  generalize hpc : buildPublicationsHtml (bibtexPublicationsOf lib s3) (manualPublicationsOf s3) = pco
  generalize hgc : buildGalleryHtml G.2.1 = gco
  generalize hbe : (!(bibtexPublicationsOf lib s3).isEmpty || !(manualPublicationsOf s3).isEmpty) = b
  generalize hge : (!G.2.1.isEmpty) = gb
  have hAnil : ∀ it ∈ G.1, it.refs = [] :=
    fun it hit => refs_eq_nil_of_isAttachment it (hg4 it hit)
  have hconj1 : ∀ tail : List WxrItem,
      tail.map WxrItem.postId = List.range' (2 + G.1.length) tail.length →
      (G.1 ++ tail).map WxrItem.postId = List.range' 2 (G.1 ++ tail).length :=
    fun tail h3 => map_append_range G.1 tail (hg1.trans hg2) h3
  rcases hp with hp | ⟨pf, hp⟩ <;> subst hp <;> cases b <;> cases gb <;>
    simp only [List.nil_append, List.append_assoc, List.cons_append,
      Bool.false_eq_true, if_false, if_true, List.append_nil] <;>
    constructor
  · exact hconj1 _ (by simp [WxrItem.postId, List.range', hg3]; omega)
  · refine refsPrecede_of_split G.1 _ hAnil ?_
    rintro it hit r hr
    simp only [List.mem_singleton] at hit
    subst hit
    simp [WxrItem.refs] at hr
  · exact hconj1 _ (by simp [WxrItem.postId, List.range', hg3]; omega)
  · refine refsPrecede_of_split G.1 _ hAnil ?_
    rintro it hit r hr
    rcases List.mem_cons.mp hit with rfl | hit
    · simp [WxrItem.refs] at hr
    · rcases List.mem_singleton.mp hit with rfl
      simp only [WxrItem.refs] at hr
      exact hg5 r hr
  · exact hconj1 _ (by simp [WxrItem.postId, List.range', hg3]; omega)
  · refine refsPrecede_of_split G.1 _ hAnil ?_
    rintro it hit r hr
    rcases List.mem_cons.mp hit with rfl | hit
    · simp [WxrItem.refs] at hr
    · rcases List.mem_singleton.mp hit with rfl
      simp [WxrItem.refs] at hr
  · exact hconj1 _ (by simp [WxrItem.postId, List.range', hg3]; omega)
  · refine refsPrecede_of_split G.1 _ hAnil ?_
    rintro it hit r hr
    rcases List.mem_cons.mp hit with rfl | hit
    · simp [WxrItem.refs] at hr
    · rcases List.mem_cons.mp hit with rfl | hit
      · simp [WxrItem.refs] at hr
      · rcases List.mem_singleton.mp hit with rfl
        simp only [WxrItem.refs] at hr
        exact hg5 r hr
  · exact hconj1 _ (by simp [WxrItem.postId, List.range', hg3]; omega)
  · rw [List.append_cons]
    refine refsPrecede_of_split (G.1 ++ [WxrItem.attachment pf (G.2.2 + 1)]) _ ?_ ?_
    · rintro it hit
      rcases List.mem_append.mp hit with hit | hit
      · exact hAnil it hit
      · rcases List.mem_singleton.mp hit with rfl
        rfl
    · rintro it hit r hr
      rcases List.mem_singleton.mp hit with rfl
      simp only [WxrItem.refs, Option.toList_some, List.mem_singleton] at hr
      subst hr
      exact ⟨pf, by simp⟩
  · exact hconj1 _ (by simp [WxrItem.postId, List.range', hg3]; omega)
  · rw [List.append_cons]
    refine refsPrecede_of_split (G.1 ++ [WxrItem.attachment pf (G.2.2 + 1)]) _ ?_ ?_
    · rintro it hit
      rcases List.mem_append.mp hit with hit | hit
      · exact hAnil it hit
      · rcases List.mem_singleton.mp hit with rfl
        rfl
    · rintro it hit r hr
      rcases List.mem_cons.mp hit with rfl | hit
      · simp only [WxrItem.refs, Option.toList_some, List.mem_singleton] at hr
        subst hr
        exact ⟨pf, by simp⟩
      · rcases List.mem_singleton.mp hit with rfl
        simp only [WxrItem.refs] at hr
        obtain ⟨f, hf⟩ := hg5 r hr
        exact ⟨f, List.mem_append_left _ hf⟩
  · exact hconj1 _ (by simp [WxrItem.postId, List.range', hg3]; omega)
  · rw [List.append_cons]
    refine refsPrecede_of_split (G.1 ++ [WxrItem.attachment pf (G.2.2 + 1)]) _ ?_ ?_
    · rintro it hit
      rcases List.mem_append.mp hit with hit | hit
      · exact hAnil it hit
      · rcases List.mem_singleton.mp hit with rfl
        rfl
    · rintro it hit r hr
      rcases List.mem_cons.mp hit with rfl | hit
      · simp only [WxrItem.refs, Option.toList_some, List.mem_singleton] at hr
        subst hr
        exact ⟨pf, by simp⟩
      · rcases List.mem_singleton.mp hit with rfl
        simp [WxrItem.refs] at hr
  · exact hconj1 _ (by simp [WxrItem.postId, List.range', hg3]; omega)
  · rw [List.append_cons]
    refine refsPrecede_of_split (G.1 ++ [WxrItem.attachment pf (G.2.2 + 1)]) _ ?_ ?_
    · rintro it hit
      rcases List.mem_append.mp hit with hit | hit
      · exact hAnil it hit
      · rcases List.mem_singleton.mp hit with rfl
        rfl
    · rintro it hit r hr
      rcases List.mem_cons.mp hit with rfl | hit
      · simp only [WxrItem.refs, Option.toList_some, List.mem_singleton] at hr
        subst hr
        exact ⟨pf, by simp⟩
      · rcases List.mem_cons.mp hit with rfl | hit
        · simp [WxrItem.refs] at hr
        · rcases List.mem_singleton.mp hit with rfl
          simp only [WxrItem.refs] at hr
          obtain ⟨f, hf⟩ := hg5 r hr
          exact ⟨f, List.mem_append_left _ hf⟩

/-- C1 witness: on a site with one existing gallery image and an
existing profile picture, the Home page (third item, index 2)
references post id 3, and an attachment with post id 3 occurs among the
first two items. -/
theorem wxr_postIds_consecutive_and_attachments_precede_witness :
    ∃ f, WxrItem.attachment f 3 ∈
      (generateWxrItems (fun _ => true) none
        ⟨some "Prof", none, none, none, none, none⟩ none none
        (some ⟨some "p.jpg", ["a.jpg"]⟩)).take 2 :=
  (wxr_postIds_consecutive_and_attachments_precede (fun _ => true) none
      ⟨some "Prof", none, none, none, none, none⟩ none none
      (some ⟨some "p.jpg", ["a.jpg"]⟩)).2 ⟨2, by decide⟩ 3 (by decide)

/-- C5: when step-1 and step-2 records are present but there are no
publications (the builder's parsed BibTeX list and manual list are both
empty) and no images (no gallery filenames and no truthy profile
picture), the generated document consists of exactly one page item,
titled "Home", with post id 2. -/
theorem home_only_document (fe : String → Bool) (lib : Option BibLoads)
    (s1 : Step1Rec) (s2 : Option Step2Rec) (s3 : Option Step3Rec)
    (s4 : Option Step4Rec)
    (hb : bibtexPublicationsOf lib s3 = [])
    (hm : manualPublicationsOf s3 = [])
    (h4 : ∀ x, s4 = some x →
      x.galleryImages = [] ∧ pyTruthy x.profilePicture = false) :
    generateWxrItems fe lib s1 s2 s3 s4 =
      [WxrItem.page "Home" (buildHomepageContent s1 s2 none) 2 []] := by
  rcases s4 with _ | x
  · simp [generateWxrItems, galleryFilesOf, addGalleryAttachmentItems,
      profileAttachmentStep, hb, hm]
  · obtain ⟨hgal, hprof⟩ := h4 x rfl
    simp [generateWxrItems, galleryFilesOf, hgal, addGalleryAttachmentItems,
      profileAttachmentStep, hprof, hb, hm]

/-- C5 witness. -/
theorem home_only_document_witness :
    generateWxrItems (fun _ => true) none
        ⟨some "Prof", none, none, none, none, none⟩ none none none =
      [WxrItem.page "Home"
        (buildHomepageContent ⟨some "Prof", none, none, none, none, none⟩ none none)
        2 []] :=
  home_only_document (fun _ => true) none
    ⟨some "Prof", none, none, none, none, none⟩ none none none rfl rfl
    (by simp)

/-- C8: a site whose step-4 record has exactly one gallery image whose
existence check fails and no truthy profile picture produces a document
with zero attachment items and no Gallery page item; the image is
skipped without any placeholder item. -/
theorem missing_gallery_image_skipped (fe : String → Bool) (lib : Option BibLoads)
    (s1 : Step1Rec) (s2 : Option Step2Rec) (s3 : Option Step3Rec)
    (x : Step4Rec) (f : String)
    (hgal : x.galleryImages = [f]) (hex : fe f = false)
    (hprof : pyTruthy x.profilePicture = false) :
    (∀ it ∈ generateWxrItems fe lib s1 s2 s3 (some x), it.isAttachment = false) ∧
      ∀ it ∈ generateWxrItems fe lib s1 s2 s3 (some x),
        it.pageTitle? ≠ some "Gallery" := by
  by_cases hc :
    (!(bibtexPublicationsOf lib s3).isEmpty || !(manualPublicationsOf s3).isEmpty) = true
  · have hi : generateWxrItems fe lib s1 s2 s3 (some x) =
        [WxrItem.page "Home" (buildHomepageContent s1 s2 none) 2 [],
         WxrItem.page "Publications"
           (buildPublicationsHtml (bibtexPublicationsOf lib s3) (manualPublicationsOf s3))
           3 []] := by
      simp [generateWxrItems, galleryFilesOf, hgal, addGalleryAttachmentItems, hex,
        profileAttachmentStep, hprof, hc]
    rw [hi]
    simp [WxrItem.isAttachment, WxrItem.pageTitle?]
  · have hi : generateWxrItems fe lib s1 s2 s3 (some x) =
        [WxrItem.page "Home" (buildHomepageContent s1 s2 none) 2 []] := by
      simp [generateWxrItems, galleryFilesOf, hgal, addGalleryAttachmentItems, hex,
        profileAttachmentStep, hprof, hc]
    rw [hi]
    simp [WxrItem.isAttachment, WxrItem.pageTitle?]

/-- C8 witness. -/
theorem missing_gallery_image_skipped_witness :
    (∀ it ∈ generateWxrItems (fun _ => false) none
        ⟨some "Prof", none, none, none, none, none⟩ none none
        (some ⟨none, ["ghost.jpg"]⟩), it.isAttachment = false) ∧
      ∀ it ∈ generateWxrItems (fun _ => false) none
        ⟨some "Prof", none, none, none, none, none⟩ none none
        (some ⟨none, ["ghost.jpg"]⟩), it.pageTitle? ≠ some "Gallery" :=
  missing_gallery_image_skipped (fun _ => false) none
    ⟨some "Prof", none, none, none, none, none⟩ none none
    ⟨none, ["ghost.jpg"]⟩ "ghost.jpg" rfl rfl rfl

theorem pageTitle_none_of_attachment (it : WxrItem) (h : it.isAttachment = true) :
    it.pageTitle? = none := by
  cases it
  · rfl
  · simp [WxrItem.isAttachment] at h

theorem buildPublicationsHtml_nonempty (B : List PubRec) (M : List ManualPublication)
    (h : B ≠ [] ∨ M ≠ []) :
    buildPublicationsHtml B M =
      String.intercalate "\n"
        (pubHeadingParts ++
          ((B ++ M.map ManualPublication.toDict).map pubParagraphBlock).flatten) := by
  have hBif : (if !B.isEmpty then B else []) = B := by cases B <;> simp
  have hne : (B ++ M.map ManualPublication.toDict).isEmpty = false := by
    rcases h with h | h
    · cases B
      · exact absurd rfl h
      · rfl
    · cases M
      · exact absurd rfl h
      · cases B <;> rfl
  simp only [buildPublicationsHtml, hBif, hne, Bool.false_eq_true, if_false]
  rw [foldl_append_blocks]

theorem pubs_cond_iff (B : List PubRec) (M : List ManualPublication) :
    ((!B.isEmpty || !M.isEmpty) = true) ↔ (B ≠ [] ∨ M ≠ []) := by
  simp [List.isEmpty_iff]

/-- C2: a Publications page item is emitted if and only if at least one
publication exists (a parsed BibTeX record or a manually entered
record); its body is `_build_publications_html` of the parsed records
followed by the manual records, and when any publication exists that
body is the heading followed by one `wp:paragraph` block per
publication, BibTeX records first and the manual records after them in
stored order. -/
theorem publicationsPage_iff_publications_exist (fe : String → Bool)
    (lib : Option BibLoads) (s1 : Step1Rec) (s2 : Option Step2Rec)
    (s3 : Option Step3Rec) (s4 : Option Step4Rec) :
    ((∃ it ∈ generateWxrItems fe lib s1 s2 s3 s4,
        it.pageTitle? = some "Publications") ↔
      (bibtexPublicationsOf lib s3 ≠ [] ∨ manualPublicationsOf s3 ≠ [])) ∧
    (∀ it ∈ generateWxrItems fe lib s1 s2 s3 s4,
      it.pageTitle? = some "Publications" →
        it.body =
          buildPublicationsHtml (bibtexPublicationsOf lib s3)
            (manualPublicationsOf s3)) ∧
    ((bibtexPublicationsOf lib s3 ≠ [] ∨ manualPublicationsOf s3 ≠ []) →
      buildPublicationsHtml (bibtexPublicationsOf lib s3) (manualPublicationsOf s3) =
        String.intercalate "\n"
          (pubHeadingParts ++
            ((bibtexPublicationsOf lib s3 ++
                (manualPublicationsOf s3).map ManualPublication.toDict).map
              pubParagraphBlock).flatten)) := by
  refine and_assoc.mp ⟨?_, fun h => buildPublicationsHtml_nonempty _ _ h⟩
  simp only [generateWxrItems]
  generalize hGe : addGalleryAttachmentItems fe (galleryFilesOf s4) 1 = G
  have hg4 := hGe ▸ agai_attachments fe (galleryFilesOf s4) 1
  have hGnot : ∀ it ∈ G.1, it.pageTitle? ≠ some "Publications" := by
    intro it hit
    rw [pageTitle_none_of_attachment it (hg4 it hit)]
    simp
  generalize hPe : profileAttachmentStep fe s4 G.2.2 = P
  have hp := hPe ▸ profile_spec fe s4 G.2.2
  generalize hhc : buildHomepageContent s1 s2 P.2.1 = hco
  generalize hgc : buildGalleryHtml G.2.1 = gco
  rw [← pubs_cond_iff]
  generalize hge : (!G.2.1.isEmpty) = gb
  rcases hp with hp | ⟨pf, hp⟩ <;> subst hp <;> cases gb <;>
    by_cases hc : (!(bibtexPublicationsOf lib s3).isEmpty ||
      !(manualPublicationsOf s3).isEmpty) = true <;>
    simp only [hc, if_true, if_false, Bool.false_eq_true, Bool.true_eq_false,
      List.nil_append, List.append_assoc, List.cons_append, List.append_nil]
  all_goals
    refine ⟨?_, List.forall_mem_append.mpr
      ⟨fun it hit ht => absurd ht (hGnot it hit),
       by simp [WxrItem.pageTitle?, WxrItem.body]⟩⟩
  all_goals
    first
    | exact ⟨fun _ => trivial, fun _ => by
        simp only [List.mem_append, List.mem_cons, List.not_mem_nil, or_false]
        first
        | exact ⟨_, Or.inr (Or.inr rfl), rfl⟩
        | exact ⟨_, Or.inr (Or.inr (Or.inl rfl)), rfl⟩
        | exact ⟨_, Or.inr (Or.inr (Or.inr rfl)), rfl⟩
        | exact ⟨_, Or.inr (Or.inr (Or.inr (Or.inl rfl))), rfl⟩⟩
    | (refine ⟨fun h => ?_, fun h => h.elim⟩
       obtain ⟨it, hit, ht⟩ := h
       rcases List.mem_append.mp hit with hh | hh
       · exact hGnot it hh ht
       · simp only [List.mem_cons, List.not_mem_nil, or_false] at hh
         rcases hh with rfl | rfl | rfl <;> simp [WxrItem.pageTitle?] at ht)

/-- C2 witness: a site with one manual publication gets a Publications
page item. -/
theorem publicationsPage_iff_publications_exist_witness :
    ∃ it ∈ generateWxrItems (fun _ => true) none
        ⟨some "Prof", none, none, none, none, none⟩ none
        (some ⟨none, [⟨7, "A", "T", none, none, none, none, none⟩]⟩) none,
      it.pageTitle? = some "Publications" :=
  (publicationsPage_iff_publications_exist (fun _ => true) none
      ⟨some "Prof", none, none, none, none, none⟩ none
      (some ⟨none, [⟨7, "A", "T", none, none, none, none, none⟩]⟩) none).1.mpr
    (Or.inr (by decide))

theorem galleryAttachmentLines_eq (u : UserRec) (now822 nowSql : String)
    (fe : String → Bool) :
    ∀ (fs : List String) (c : Nat),
      galleryAttachmentLines u now822 nowSql fe fs c =
        (((addGalleryAttachmentItems fe fs c).1.map
            (renderItem u now822 nowSql)).flatten,
         (addGalleryAttachmentItems fe fs c).2.1,
         (addGalleryAttachmentItems fe fs c).2.2) := by
  intro fs
  induction fs with
  | nil => intro c; simp [galleryAttachmentLines, addGalleryAttachmentItems]
  | cons f fs ih =>
    intro c
    by_cases h : fe f
    · simp [galleryAttachmentLines, addGalleryAttachmentItems, h, ih (c + 1),
        renderItem]
    · simp [galleryAttachmentLines, addGalleryAttachmentItems, h, ih c]

/-- Soundness of the item-level model: the string-level
`_generate_wxr_content` output is exactly the channel header, the XML
rendering of each modelled item in order, and the footer, joined by
newlines. -/
theorem generateWxrContent_eq_render (u : UserRec) (site : SiteRec)
    (now822 nowSql : String)
    (fe : String → Bool) (lib : Option BibLoads) (s1 : Step1Rec)
    (s2 : Option Step2Rec) (s3 : Option Step3Rec) (s4 : Option Step4Rec) :
    generateWxrContent u site now822 nowSql fe lib s1 s2 s3 s4 =
      String.intercalate "\n"
        (channelHeader u site now822 ++
         ((generateWxrItems fe lib s1 s2 s3 s4).map
            (renderItem u now822 nowSql)).flatten ++
         channelFooter) := by
  simp only [generateWxrContent, generateWxrItems,
    galleryAttachmentLines_eq u now822 nowSql fe (galleryFilesOf s4) 1]
  rcases s4 with _ | x <;>
    simp only [profileAttachmentStep, galleryFilesOf] <;>
    split_ifs <;>
    simp [renderItem, List.map_append, List.append_assoc]
